import Mathlib

/-!
# Land Records Management System — workflow-engine embedding

A shallow embedding of the application lifecycle workflow engine of
`src/BackendAPIService(Node.js/Express)/index.js`.  The in-memory stores
(`users`, `plots`, `applications`, `notifications`, `payments`) become the
fields of an explicit state record `St`; each Express route handler becomes a
pure function from a caller identity, a request body and a state to a result
paired with the successor state.  JavaScript `uuidv4()` calls are modelled by
a fresh-identifier counter `nextId` threaded through the state, and
`new Date()` by a `now` field.  JavaScript truthiness of request-body fields
(`!applicationType`, `!docLinks`, ...) is modelled exactly: an absent field or
an empty string is falsy, while an array — even an empty one — is truthy.
Fallible handlers return `Except ApiError`; a JavaScript `TypeError` thrown by
dereferencing an absent record is the distinguished error `runtimeTypeError`.
-/

namespace LandRecords

/-- A user record of the identity store (`users` array in the source). -/
structure User where
  id : String
  name : String
  email : String
  password : String
  role : String
  language : String
  deriving DecidableEq

/-- A land-plot record (`plots` array).  The geospatial attributes
(`location`, `boundaries`) are floating-point data opaque to the workflow
engine and are omitted from the embedding; the engine reads only `plotId`
and `currentOwnerEmail`. -/
structure Plot where
  plotId : String
  area : Nat
  type : String
  currentOwnerEmail : String
  status : String
  deriving DecidableEq

/-- One entry of an Application's `history` array, pushed by the status-update
handler.  The source's JSON keys are `by`, `at`, `status`, `remarks`; `by` and
`at` are Lean keywords, so the spec's field names `actorRole` and `timestamp`
are used. -/
structure HistoryRecord where
  actorRole : String
  timestamp : Nat
  status : String
  remarks : Option String
  deriving DecidableEq

/-- An Application entity as constructed by `POST /api/applications`. -/
structure Application where
  id : String
  applicationType : String
  applicant : Option String
  applicantEmail : String
  plotId : String
  applicationStatus : String
  date : Nat
  documents : List String
  reason : Option String
  officerAssigned : Option String
  paymentStatus : String
  history : List HistoryRecord
  deriving DecidableEq

/-- A notification record pushed by `sendNotification`. -/
structure Notification where
  id : String
  toUserId : String
  message : String
  ts : Nat
  deriving DecidableEq

/-- A payment-ledger record pushed by `POST /api/payments/initiate`. -/
structure Payment where
  id : String
  applicationId : String
  amount : Int
  status : String
  paidBy : String
  date : Nat
  deriving DecidableEq

/-- The whole in-memory store, plus a fresh-id counter modelling `uuidv4()`
and a clock value modelling `new Date()`. -/
structure St where
  users : List User
  plots : List Plot
  applications : List Application
  notifications : List Notification
  payments : List Payment
  nextId : Nat
  now : Nat
  deriving DecidableEq

/-- The trusted caller identity the gateway's JWT middleware puts in
`req.user`: the token payload is `{id, role, email}`; `name` is absent from
the payload (so `req.user.name` is `undefined`, modelled as `Option`). -/
structure Caller where
  id : String
  email : String
  role : String
  name : Option String
  deriving DecidableEq

/-- Body of `POST /api/applications`.  Every field may be absent. -/
structure SubmitBody where
  applicationType : Option String
  plotId : Option String
  documents : Option (List String)
  reason : Option String
  deriving DecidableEq

/-- Body of `POST /api/payments/initiate`.  `amount = none` models a missing
or non-numeric `amount` (the source checks `typeof amount !== 'number'`). -/
structure PaymentBody where
  applicationId : Option String
  amount : Option Int
  deriving DecidableEq

/-- Body of `POST /api/applications/:id/status`. -/
structure StatusBody where
  status : String
  remarks : Option String
  deriving DecidableEq

/-- The distinct error responses of the engine's handlers.  The last
constructor models a JavaScript `TypeError` escaping the handler (an uncaught
runtime crash), not a deliberate error response. -/
inductive ApiError where
  /-- 403 `Access denied` from the `authorizeRoles` middleware. -/
  | accessDenied
  /-- 400 `Missing fields` from the submission handler. -/
  | missingFields
  /-- 400 `Invalid application type` from the submission handler. -/
  | invalidApplicationType
  /-- 400 `Plot does not belong to you` from the submission handler. -/
  | plotNotOwned
  /-- 400 `Missing or invalid payment details` from the payment handler. -/
  | missingPaymentDetails
  /-- 404 `Application not found` from the payment handler. -/
  | applicationNotFound
  /-- 409 `Already paid` from the payment handler. -/
  | alreadyPaid
  /-- 404 `Not found` from the status-update handler. -/
  | statusNotFound
  /-- An uncaught JavaScript `TypeError` (dereference of `undefined`). -/
  | runtimeTypeError
  deriving DecidableEq

deriving instance DecidableEq for Except

/-- The spec's `ValidationError` class (§7): malformed/missing input. -/
def isValidationError : ApiError → Bool
  | .missingFields => true
  | .invalidApplicationType => true
  | .missingPaymentDetails => true
  | _ => false

/-- The spec's `AuthorizationError` class (§7): caller lacks the role or the
ownership required for the target resource.  Per §4.1 precondition 3, the
submission handler's `Plot does not belong to you` rejection is this class. -/
def isAuthorizationError : ApiError → Bool
  | .accessDenied => true
  | .plotNotOwned => true
  | _ => false

/-- The spec's `NotFoundError` class (§7). -/
def isNotFoundError : ApiError → Bool
  | .applicationNotFound => true
  | .statusNotFound => true
  | _ => false

/-- The spec's `ConflictError` class (§7). -/
def isConflictError : ApiError → Bool
  | .alreadyPaid => true
  | _ => false

/-- JavaScript truthiness of an optional string field: `undefined` and the
empty string are falsy. -/
def strTruthy : Option String → Bool
  | none => false
  | some s => s != ""

/-- JavaScript truthiness of an optional array field: `undefined` is falsy
but every array — including `[]` — is truthy (`![]` is `false` in JS). -/
def listTruthy : Option (List String) → Bool
  | none => false
  | some _ => true

/-- Fresh identifier generation, modelling `uuidv4()`: the `n`-th id drawn
from the counter. -/
def freshId (n : Nat) : String := "uuid-" ++ toString n

/-- In-place mutation of the first element of a JS array matching a
predicate (`const app = arr.find(p); mutate(app)` mutates that element where
it sits in the array). -/
def updateFirst (p : α → Bool) (f : α → α) : List α → List α
  | [] => []
  | a :: as => if p a then f a :: as else a :: updateFirst p f as

/-- `POST /api/applications` (lines 246-273): submit a new application.
Guarded by `authorizeRoles(["citizen"])`; three validation steps in source
order, first failure wins; on success pushes the Application, sends one
notification to the caller, and returns the created Application. -/
def submitApplication (c : Caller) (b : SubmitBody) (st : St) :
    Except ApiError Application × St :=
  if !(["citizen"].contains c.role) then (.error .accessDenied, st)
  else if !strTruthy b.applicationType || !strTruthy b.plotId
      || !listTruthy b.documents then
    (.error .missingFields, st)
  else if !(["mutation", "correction", "conversion"].contains
      (b.applicationType.getD "")) then
    (.error .invalidApplicationType, st)
  else
    match st.plots.find?
        (fun p => p.plotId == b.plotId.getD ""
          && p.currentOwnerEmail == c.email) with
    | none => (.error .plotNotOwned, st)
    | some _ =>
      (.ok
        { id := freshId st.nextId
          applicationType := b.applicationType.getD ""
          applicant := c.name
          applicantEmail := c.email
          plotId := b.plotId.getD ""
          applicationStatus := "submitted"
          date := st.now
          documents := b.documents.getD []
          reason := if strTruthy b.reason then b.reason else none
          officerAssigned := none
          paymentStatus := "pending"
          history := [] },
       { st with
         applications := st.applications ++
           [{ id := freshId st.nextId
              applicationType := b.applicationType.getD ""
              applicant := c.name
              applicantEmail := c.email
              plotId := b.plotId.getD ""
              applicationStatus := "submitted"
              date := st.now
              documents := b.documents.getD []
              reason := if strTruthy b.reason then b.reason else none
              officerAssigned := none
              paymentStatus := "pending"
              history := [] }]
         notifications := st.notifications ++
           [{ id := freshId (st.nextId + 1), toUserId := c.id
              message := "Application submitted successfully. Please complete payment."
              ts := st.now }]
         nextId := st.nextId + 2 })

/-- `POST /api/payments/initiate` (lines 337-357): demo payment.  Guarded by
`authorizeRoles(["citizen"])`.  On success pushes a Payment record whose
stored `status` is `"initiated"`, sets the Application's `paymentStatus` to
`"completed"` in place, sends one notification to the caller, and responds
`{paymentId, status: "completed"}`. -/
def paymentInitiate (c : Caller) (b : PaymentBody) (st : St) :
    Except ApiError (String × String) × St :=
  if !(["citizen"].contains c.role) then (.error .accessDenied, st)
  else if !strTruthy b.applicationId || b.amount.isNone then
    (.error .missingPaymentDetails, st)
  else
    match st.applications.find?
        (fun a => a.id == b.applicationId.getD ""
          && a.applicantEmail == c.email) with
    | none => (.error .applicationNotFound, st)
    | some app =>
      if app.paymentStatus == "completed" then (.error .alreadyPaid, st)
      else
        (.ok (freshId st.nextId, "completed"),
         { st with
           payments := st.payments ++
             [{ id := freshId st.nextId
                applicationId := b.applicationId.getD ""
                amount := b.amount.getD 0, status := "initiated"
                paidBy := c.email, date := st.now }]
           applications := updateFirst
             (fun a => a.id == b.applicationId.getD ""
               && a.applicantEmail == c.email)
             (fun a => { a with paymentStatus := "completed" })
             st.applications
           notifications := st.notifications ++
             [{ id := freshId (st.nextId + 1), toUserId := c.id
                message := "Payment successful for application: "
                  ++ b.applicationId.getD ""
                ts := st.now }]
           nextId := st.nextId + 2 })

/-- `POST /api/applications/:id/status` (lines 283-299): officer/admin status
update.  Mutates the found Application in place (overwrites
`applicationStatus`, pushes one history record), then dereferences the
applicant's user record to address the notification: when no user has the
Application's `applicantEmail`, the JS throws a `TypeError` *after* the
mutation — modelled by `runtimeTypeError` paired with the already-mutated
state. -/
def updateApplicationStatus (c : Caller) (appId : String) (b : StatusBody)
    (st : St) : Except ApiError Application × St :=
  if !(["officer", "admin"].contains c.role) then (.error .accessDenied, st)
  else
    match st.applications.find? (fun a => a.id == appId) with
    | none => (.error .statusNotFound, st)
    | some app =>
      match st.users.find? (fun u => u.email == app.applicantEmail) with
      | none =>
        (.error .runtimeTypeError,
         { st with
           applications := updateFirst (fun a => a.id == appId)
             (fun a => { a with
               applicationStatus := b.status
               history := a.history ++
                 [{ actorRole := c.role, timestamp := st.now
                    status := b.status, remarks := b.remarks }] })
             st.applications })
      | some u =>
        (.ok { app with
                applicationStatus := b.status
                history := app.history ++
                  [{ actorRole := c.role, timestamp := st.now
                     status := b.status, remarks := b.remarks }] },
         { st with
           applications := updateFirst (fun a => a.id == appId)
             (fun a => { a with
               applicationStatus := b.status
               history := a.history ++
                 [{ actorRole := c.role, timestamp := st.now
                    status := b.status, remarks := b.remarks }] })
             st.applications
           notifications := st.notifications ++
             [{ id := freshId st.nextId, toUserId := u.id
                message := "Application status updated to: " ++ b.status
                ts := st.now }]
           nextId := st.nextId + 1 })

/-- `GET /api/applications` (lines 229-236): citizens see only their own
applications, officer/admin see all.  The handler reads but never writes the
store, so the state is returned unchanged. -/
def listApplications (c : Caller) (st : St) :
    Except ApiError (List Application) × St :=
  if !(["citizen", "officer", "admin"].contains c.role) then
    (.error .accessDenied, st)
  else if c.role == "citizen" then
    (.ok (st.applications.filter (fun a => a.applicantEmail == c.email)), st)
  else
    (.ok st.applications, st)

/-- `GET /api/notifications` (lines 369-372): looks up the caller's user
record by id and filters notifications by `user.id`.  When the caller's id is
not in the user store, `users.find(...)` is `undefined` and `user.id` throws
a `TypeError` — modelled by `runtimeTypeError`. -/
def listNotificationsForCaller (c : Caller) (st : St) :
    Except ApiError (List Notification) × St :=
  if !(["citizen", "officer", "admin"].contains c.role) then
    (.error .accessDenied, st)
  else
    match st.users.find? (fun u => u.id == c.id) with
    | none => (.error .runtimeTypeError, st)
    | some user =>
      (.ok (st.notifications.filter (fun n => n.toUserId == user.id)), st)

/-- One invocation of a workflow-engine operation, for reasoning about
sequences of operations. -/
inductive EngineOp where
  | submit (c : Caller) (b : SubmitBody)
  | pay (c : Caller) (b : PaymentBody)
  | setStatus (c : Caller) (appId : String) (b : StatusBody)
  | listApps (c : Caller)
  | listNotifs (c : Caller)

/-- The successor state of one engine operation. -/
def stepSt (op : EngineOp) (st : St) : St :=
  match op with
  | .submit c b => (submitApplication c b st).2
  | .pay c b => (paymentInitiate c b st).2
  | .setStatus c appId b => (updateApplicationStatus c appId b st).2
  | .listApps c => (listApplications c st).2
  | .listNotifs c => (listNotificationsForCaller c st).2

/-- The error result, if any, of one engine operation. -/
def opError (op : EngineOp) (st : St) : Option ApiError :=
  match op with
  | .submit c b =>
    match (submitApplication c b st).1 with
    | .error e => some e
    | .ok _ => none
  | .pay c b =>
    match (paymentInitiate c b st).1 with
    | .error e => some e
    | .ok _ => none
  | .setStatus c appId b =>
    match (updateApplicationStatus c appId b st).1 with
    | .error e => some e
    | .ok _ => none
  | .listApps c =>
    match (listApplications c st).1 with
    | .error e => some e
    | .ok _ => none
  | .listNotifs c =>
    match (listNotificationsForCaller c st).1 with
    | .error e => some e
    | .ok _ => none

/-- Run a sequence of engine operations from a state. -/
def runOps : List EngineOp → St → St
  | [], st => st
  | op :: ops, st => runOps ops (stepSt op st)

/-! ## Concrete fixtures mirroring the seed data of the source -/

/-- The seeded demo citizen (`users[0]`). -/
def demoCitizen : User :=
  { id := "uid-citizen", name := "Demo Citizen", email := "citizen@example.com"
    password := "citizenpass", role := "citizen", language := "en" }

/-- The seeded demo officer (`users[1]`). -/
def demoOfficer : User :=
  { id := "uid-officer", name := "Land Officer", email := "officer@gov.in"
    password := "officerpass", role := "officer", language := "en" }

/-- The seeded demo admin (`users[2]`). -/
def demoAdmin : User :=
  { id := "uid-admin", name := "System Admin", email := "admin@gov.in"
    password := "adminpass", role := "admin", language := "en" }

/-- The seeded plot `PLOT123` owned by the demo citizen. -/
def demoPlot : Plot :=
  { plotId := "PLOT123", area := 1000, type := "agricultural"
    currentOwnerEmail := "citizen@example.com", status := "active" }

/-- The initial in-memory store. -/
def demoState : St :=
  { users := [demoCitizen, demoOfficer, demoAdmin], plots := [demoPlot]
    applications := [], notifications := [], payments := []
    nextId := 0, now := 0 }

/-- The demo citizen's token payload. -/
def citizenCaller : Caller :=
  { id := "uid-citizen", email := "citizen@example.com", role := "citizen"
    name := none }

/-- The demo officer's token payload. -/
def officerCaller : Caller :=
  { id := "uid-officer", email := "officer@gov.in", role := "officer"
    name := none }

/-- A second citizen who owns no plot. -/
def otherCaller : Caller :=
  { id := "uid-other", email := "other@example.com", role := "citizen"
    name := none }

/-- A caller holding a valid token whose user record is absent from the
store (e.g. after a sample-data reset popped their registration). -/
def ghostCaller : Caller :=
  { id := "uid-ghost", email := "ghost@example.com", role := "citizen"
    name := none }

/-- A well-formed submission body for `PLOT123`. -/
def submitBody1 : SubmitBody :=
  { applicationType := some "mutation", plotId := some "PLOT123"
    documents := some ["doc-1"], reason := none }

/-- A submission body whose `documents` field is an empty array. -/
def emptyDocsBody : SubmitBody :=
  { applicationType := some "mutation", plotId := some "PLOT123"
    documents := some [], reason := none }

/-- A submission body with every field absent. -/
def emptyBody : SubmitBody :=
  { applicationType := none, plotId := none, documents := none, reason := none }

/-- A submitted application awaiting payment, as the engine creates it. -/
def pendingApp : Application :=
  { id := "app-1", applicationType := "mutation", applicant := none
    applicantEmail := "citizen@example.com", plotId := "PLOT123"
    applicationStatus := "submitted", date := 0, documents := ["doc-1"]
    reason := none, officerAssigned := none, paymentStatus := "pending"
    history := [] }

/-- The demo store holding one pending application. -/
def statePending : St := { demoState with applications := [pendingApp] }

/-- A payment body for `pendingApp` with amount 500. -/
def payBody1 : PaymentBody := { applicationId := some "app-1", amount := some 500 }

/-- A status-update body setting `approved` with remarks. -/
def statusBody1 : StatusBody := { status := "approved", remarks := some "verified" }

/-! ## Helper lemmas about `updateFirst` -/

theorem find?_updateFirst {α : Type} (p : α → Bool) (f : α → α)
    (l : List α) (a : α) (h : l.find? p = some a) (hfa : p (f a) = true) :
    (updateFirst p f l).find? p = some (f a) := by
  induction l with
  | nil => simp at h
  | cons x xs ih =>
    by_cases hp : p x = true
    · rw [List.find?_cons_of_pos _ hp] at h
      injection h with h
      subst h
      simp only [updateFirst, if_pos hp]
      exact List.find?_cons_of_pos _ hfa
    · rw [List.find?_cons_of_neg _ hp] at h
      simp only [updateFirst, if_neg hp]
      rw [List.find?_cons_of_neg _ hp]
      exact ih h

theorem mem_updateFirst {α : Type} {p : α → Bool} {f : α → α}
    {l : List α} {a' : α} (h : a' ∈ updateFirst p f l) :
    a' ∈ l ∨ ∃ a, a ∈ l ∧ a' = f a := by
  induction l with
  | nil => simp [updateFirst] at h
  | cons x xs ih =>
    simp only [updateFirst] at h
    by_cases hp : p x = true
    · rw [if_pos hp] at h
      rcases List.mem_cons.mp h with h | h
      · exact Or.inr ⟨x, List.mem_cons_self _ _, h⟩
      · exact Or.inl (List.mem_cons_of_mem _ h)
    · rw [if_neg hp] at h
      rcases List.mem_cons.mp h with h | h
      · exact Or.inl (h ▸ List.mem_cons_self _ _)
      · rcases ih h with h | ⟨a, ha, rfl⟩
        · exact Or.inl (List.mem_cons_of_mem _ h)
        · exact Or.inr ⟨a, List.mem_cons_of_mem _ ha, rfl⟩

theorem updateFirst_rel {α : Type} (R : α → α → Prop) (p : α → Bool)
    (f : α → α) (hrefl : ∀ x, R x x) (hf : ∀ x, R x (f x))
    {l : List α} {a : α} (h : a ∈ l) :
    ∃ a', a' ∈ updateFirst p f l ∧ R a a' := by
  induction l with
  | nil => simp at h
  | cons x xs ih =>
    simp only [updateFirst]
    by_cases hp : p x = true
    · rw [if_pos hp]
      rcases List.mem_cons.mp h with rfl | h
      · exact ⟨f a, List.mem_cons_self _ _, hf a⟩
      · exact ⟨a, List.mem_cons_of_mem _ h, hrefl a⟩
    · rw [if_neg hp]
      rcases List.mem_cons.mp h with rfl | h
      · exact ⟨a, List.mem_cons_self _ _, hrefl a⟩
      · rcases ih h with ⟨a', ha', hr⟩
        exact ⟨a', List.mem_cons_of_mem _ ha', hr⟩

/-! ## Claim theorems -/

/-- **C6.** For every application-listing call: a citizen's result is exactly
the Applications whose `applicantEmail` equals the caller's email; an officer
or admin receives every Application in the store; and the listing returns the
state unchanged (no mutation). -/
theorem listApplications_rbac (c : Caller) (st : St)
    (hrole : c.role = "citizen" ∨ c.role = "officer" ∨ c.role = "admin") :
    (listApplications c st).2 = st ∧
    (c.role = "citizen" →
      (listApplications c st).1 =
        .ok (st.applications.filter (fun a => a.applicantEmail == c.email)) ∧
      ∀ a, (a ∈ st.applications.filter (fun a => a.applicantEmail == c.email))
        ↔ (a ∈ st.applications ∧ a.applicantEmail = c.email)) ∧
    ((c.role = "officer" ∨ c.role = "admin") →
      (listApplications c st).1 = .ok st.applications) := by
  unfold listApplications
  rcases hrole with h | h | h <;>
    simp [h, List.mem_filter]

/-- Witness for C6 at the demo citizen and the initial store. -/
theorem listApplications_rbac_witness :
    (listApplications citizenCaller demoState).2 = demoState ∧
    (citizenCaller.role = "citizen" →
      (listApplications citizenCaller demoState).1 =
        .ok (demoState.applications.filter
          (fun a => a.applicantEmail == citizenCaller.email)) ∧
      ∀ a, (a ∈ demoState.applications.filter
          (fun a => a.applicantEmail == citizenCaller.email))
        ↔ (a ∈ demoState.applications ∧
            a.applicantEmail = citizenCaller.email)) ∧
    ((citizenCaller.role = "officer" ∨ citizenCaller.role = "admin") →
      (listApplications citizenCaller demoState).1 =
        .ok demoState.applications) :=
  listApplications_rbac citizenCaller demoState (Or.inl rfl)

/-- **C10.** When the caller's user id is absent from the user store, the
notification listing dereferences the absent record and fails with an
uncaught runtime `TypeError`, which is none of the spec's four defined error
classes. -/
theorem listNotifications_missingUser (c : Caller) (st : St)
    (hrole : c.role = "citizen" ∨ c.role = "officer" ∨ c.role = "admin")
    (hmiss : st.users.find? (fun u => u.id == c.id) = none) :
    (listNotificationsForCaller c st).1 = .error .runtimeTypeError ∧
    isValidationError .runtimeTypeError = false ∧
    isAuthorizationError .runtimeTypeError = false ∧
    isNotFoundError .runtimeTypeError = false ∧
    isConflictError .runtimeTypeError = false := by
  unfold listNotificationsForCaller
  rcases hrole with h | h | h <;>
    simp [h, hmiss, isValidationError, isAuthorizationError,
      isNotFoundError, isConflictError]

/-- Witness for C10: a valid-token caller whose user record was removed. -/
theorem listNotifications_missingUser_witness :
    (listNotificationsForCaller ghostCaller demoState).1 =
      .error .runtimeTypeError ∧
    isValidationError .runtimeTypeError = false ∧
    isAuthorizationError .runtimeTypeError = false ∧
    isNotFoundError .runtimeTypeError = false ∧
    isConflictError .runtimeTypeError = false :=
  listNotifications_missingUser ghostCaller demoState (Or.inl rfl) (by decide)

/-- **C2.** Every submission by a citizen that passes the three validation
preconditions creates an Application with `applicationStatus = "submitted"`,
`paymentStatus = "pending"`, `officerAssigned = null`, empty `history`,
appends it to the store, and appends exactly one Notification addressed to
the applicant. -/
theorem submitApplication_success (c : Caller) (b : SubmitBody) (st : St)
    (hrole : c.role = "citizen")
    (hty : strTruthy b.applicationType = true)
    (hpl : strTruthy b.plotId = true)
    (hdoc : listTruthy b.documents = true)
    (htyval : ["mutation", "correction", "conversion"].contains
      (b.applicationType.getD "") = true)
    (plot : Plot)
    (hplot : st.plots.find? (fun p => p.plotId == b.plotId.getD ""
      && p.currentOwnerEmail == c.email) = some plot) :
    ∃ app,
      (submitApplication c b st).1 = .ok app ∧
      app.applicationStatus = "submitted" ∧
      app.paymentStatus = "pending" ∧
      app.officerAssigned = none ∧
      app.history = [] ∧
      app.applicantEmail = c.email ∧
      (submitApplication c b st).2.applications = st.applications ++ [app] ∧
      ∃ n, (submitApplication c b st).2.notifications =
            st.notifications ++ [n] ∧ n.toUserId = c.id := by
  unfold submitApplication
  rw [hplot]
  simp at htyval
  rcases htyval with h | h | h <;> simp [hrole, hty, hpl, hdoc, h]

/-- Witness for C2: the demo citizen submits a mutation for `PLOT123`. -/
theorem submitApplication_success_witness :
    ∃ app,
      (submitApplication citizenCaller submitBody1 demoState).1 = .ok app ∧
      app.applicationStatus = "submitted" ∧
      app.paymentStatus = "pending" ∧
      app.officerAssigned = none ∧
      app.history = [] ∧
      app.applicantEmail = citizenCaller.email ∧
      (submitApplication citizenCaller submitBody1 demoState).2.applications =
        demoState.applications ++ [app] ∧
      ∃ n, (submitApplication citizenCaller submitBody1 demoState).2.notifications =
            demoState.notifications ++ [n] ∧ n.toUserId = citizenCaller.id :=
  submitApplication_success citizenCaller submitBody1 demoState
    (by decide) (by decide) (by decide) (by decide) (by decide)
    demoPlot (by decide)

/-- **C3 counterexample.** A submission whose `documents` field is present
but an empty list does **not** fail with `ValidationError: missing fields`:
the JS check `!docLinks` treats `[]` as truthy, so the submission succeeds
and an Application is created. -/
theorem submit_emptyDocs_counterexample :
    (submitApplication citizenCaller emptyDocsBody demoState).1 ≠
      .error .missingFields ∧
    (submitApplication citizenCaller emptyDocsBody demoState).1.isOk = true ∧
    (submitApplication citizenCaller emptyDocsBody demoState).2.applications.length
      = demoState.applications.length + 1 := by decide

/-- **C3 (amended).** A submission whose `documents` reference list is
present but empty passes the missing-fields check (a JS array, even `[]`, is
truthy): when the remaining preconditions hold, the submission succeeds and
the created Application has an empty `documents` list.  Only an absent
`documents` field triggers the missing-fields rejection. -/
theorem submit_emptyDocs_accepted (c : Caller) (b : SubmitBody) (st : St)
    (hrole : c.role = "citizen")
    (hty : strTruthy b.applicationType = true)
    (hpl : strTruthy b.plotId = true)
    (hdocs : b.documents = some [])
    (htyval : ["mutation", "correction", "conversion"].contains
      (b.applicationType.getD "") = true)
    (plot : Plot)
    (hplot : st.plots.find? (fun p => p.plotId == b.plotId.getD ""
      && p.currentOwnerEmail == c.email) = some plot) :
    ∃ app,
      (submitApplication c b st).1 = .ok app ∧
      app.documents = [] ∧
      (submitApplication c b st).2.applications = st.applications ++ [app] := by
  unfold submitApplication
  rw [hplot]
  simp at htyval
  rcases htyval with h | h | h <;>
    simp [hrole, hty, hpl, hdocs, h, listTruthy]

/-- Witness for the amended C3: the demo citizen submits with `documents: []`
and the Application is created with empty documents. -/
theorem submit_emptyDocs_accepted_witness :
    ∃ app,
      (submitApplication citizenCaller emptyDocsBody demoState).1 = .ok app ∧
      app.documents = [] ∧
      (submitApplication citizenCaller emptyDocsBody demoState).2.applications =
        demoState.applications ++ [app] :=
  submit_emptyDocs_accepted citizenCaller emptyDocsBody demoState
    (by decide) (by decide) (by decide) (by decide) (by decide)
    demoPlot (by decide)

/-- **C4.** A submission by a citizen naming a `plotId` for which no Plot has
`currentOwnerEmail` equal to the caller's email (plot absent or owned by
someone else) fails with the not-plot-owner rejection — an
`AuthorizationError` in the spec's taxonomy — and no Application is
created. -/
theorem submit_notPlotOwner (c : Caller) (b : SubmitBody) (st : St)
    (hrole : c.role = "citizen")
    (hty : strTruthy b.applicationType = true)
    (hpl : strTruthy b.plotId = true)
    (hdoc : listTruthy b.documents = true)
    (htyval : ["mutation", "correction", "conversion"].contains
      (b.applicationType.getD "") = true)
    (hplot : st.plots.find? (fun p => p.plotId == b.plotId.getD ""
      && p.currentOwnerEmail == c.email) = none) :
    submitApplication c b st = (.error .plotNotOwned, st) ∧
    isAuthorizationError .plotNotOwned = true ∧
    (submitApplication c b st).2.applications = st.applications := by
  unfold submitApplication
  rw [hplot]
  simp at htyval
  rcases htyval with h | h | h <;>
    simp [hrole, hty, hpl, hdoc, h, isAuthorizationError]

/-- Witness for C4: a citizen who does not own `PLOT123` submits against
it. -/
theorem submit_notPlotOwner_witness :
    submitApplication otherCaller submitBody1 demoState =
      (.error .plotNotOwned, demoState) ∧
    isAuthorizationError .plotNotOwned = true ∧
    (submitApplication otherCaller submitBody1 demoState).2.applications =
      demoState.applications :=
  submit_notPlotOwner otherCaller submitBody1 demoState
    (by decide) (by decide) (by decide) (by decide) (by decide) (by decide)

/-- Reduction lemma for the payment handler on a well-formed request by the
applicant: the result is determined by the found Application's
`paymentStatus`. -/
theorem paymentInitiate_eq (c : Caller) (b : PaymentBody) (st : St)
    (hrole : c.role = "citizen") (aid : String)
    (haid : b.applicationId = some aid) (haidne : aid ≠ "")
    (amt : Int) (hamt : b.amount = some amt)
    (app : Application)
    (hfind : st.applications.find?
      (fun a => a.id == aid && a.applicantEmail == c.email) = some app) :
    paymentInitiate c b st =
      if app.paymentStatus == "completed" then (.error .alreadyPaid, st)
      else
        (.ok (freshId st.nextId, "completed"),
         { st with
           payments := st.payments ++
             [{ id := freshId st.nextId, applicationId := aid, amount := amt
                status := "initiated", paidBy := c.email, date := st.now }]
           applications := updateFirst
             (fun a => a.id == aid && a.applicantEmail == c.email)
             (fun a => { a with paymentStatus := "completed" })
             st.applications
           notifications := st.notifications ++
             [{ id := freshId (st.nextId + 1), toUserId := c.id
                message := "Payment successful for application: " ++ aid
                ts := st.now }]
           nextId := st.nextId + 2 }) := by
  have haidb : (aid != "") = true := by simpa using haidne
  unfold paymentInitiate
  rw [haid, hamt]
  simp [hrole, strTruthy, haidb, hfind]

/-- **C1 counterexample.** A well-formed payment completion by the applicant
on a pending Application succeeds and creates exactly one Payment record,
but the stored record's `status` is `"initiated"`, not `"completed"` (only
the HTTP response reports `"completed"`). -/
theorem payment_record_status_counterexample :
    (paymentInitiate citizenCaller payBody1 statePending).1.isOk = true ∧
    (paymentInitiate citizenCaller payBody1 statePending).2.payments.map
      Payment.status = ["initiated"] ∧
    ¬ ((paymentInitiate citizenCaller payBody1 statePending).2.payments.map
      Payment.status = ["completed"]) := by decide

/-- **C1 (amended).** A payment completion by a citizen on an existing
Application they own whose `paymentStatus` is `"pending"`, with a numeric
amount, creates exactly one Payment record whose stored `status` is
`"initiated"` (the response reports `"completed"`), sets the Application's
`paymentStatus` to `"completed"`, and emits exactly one Notification to the
applicant. -/
theorem paymentInitiate_success (c : Caller) (b : PaymentBody) (st : St)
    (hrole : c.role = "citizen") (aid : String)
    (haid : b.applicationId = some aid) (haidne : aid ≠ "")
    (amt : Int) (hamt : b.amount = some amt)
    (app : Application)
    (hfind : st.applications.find?
      (fun a => a.id == aid && a.applicantEmail == c.email) = some app)
    (hpend : app.paymentStatus = "pending") :
    ∃ p,
      (paymentInitiate c b st).1 = .ok (p.id, "completed") ∧
      (paymentInitiate c b st).2.payments = st.payments ++ [p] ∧
      p.status = "initiated" ∧ p.applicationId = aid ∧
      p.amount = amt ∧ p.paidBy = c.email ∧
      ((paymentInitiate c b st).2.applications.find?
        (fun a => a.id == aid && a.applicantEmail == c.email) =
        some { app with paymentStatus := "completed" }) ∧
      ∃ n, (paymentInitiate c b st).2.notifications =
        st.notifications ++ [n] ∧ n.toUserId = c.id := by
  have heq := paymentInitiate_eq c b st hrole aid haid haidne amt hamt app hfind
  rw [hpend] at heq
  rw [if_neg (by decide)] at heq
  rw [heq]
  refine ⟨_, rfl, rfl, rfl, rfl, rfl, rfl, ?_, ⟨_, rfl, rfl⟩⟩
  exact find?_updateFirst _ _ _ _ hfind (by simpa using List.find?_some hfind)

/-- Witness for the amended C1: the demo citizen pays 500 for the pending
application `app-1`. -/
theorem paymentInitiate_success_witness :
    ∃ p,
      (paymentInitiate citizenCaller payBody1 statePending).1 =
        .ok (p.id, "completed") ∧
      (paymentInitiate citizenCaller payBody1 statePending).2.payments =
        statePending.payments ++ [p] ∧
      p.status = "initiated" ∧ p.applicationId = "app-1" ∧
      p.amount = 500 ∧ p.paidBy = citizenCaller.email ∧
      ((paymentInitiate citizenCaller payBody1 statePending).2.applications.find?
        (fun a => a.id == "app-1" && a.applicantEmail == citizenCaller.email) =
        some { pendingApp with paymentStatus := "completed" }) ∧
      ∃ n, (paymentInitiate citizenCaller payBody1 statePending).2.notifications =
        statePending.notifications ++ [n] ∧ n.toUserId = citizenCaller.id :=
  paymentInitiate_success citizenCaller payBody1 statePending
    (by decide) "app-1" (by decide) (by decide) 500 (by decide)
    pendingApp (by decide) (by decide)

/-- **C5.** Calling payment completion twice in succession on the same
pending Application by its applicant: the first call succeeds and sets the
Application's `paymentStatus` to `"completed"` while appending exactly one
Payment; the second call fails with `ConflictError: already paid`, creates
no second Payment, and leaves the whole store unchanged. -/
theorem payment_double_call (c : Caller) (b : PaymentBody) (st : St)
    (hrole : c.role = "citizen") (aid : String)
    (haid : b.applicationId = some aid) (haidne : aid ≠ "")
    (amt : Int) (hamt : b.amount = some amt)
    (app : Application)
    (hfind : st.applications.find?
      (fun a => a.id == aid && a.applicantEmail == c.email) = some app)
    (hpend : app.paymentStatus = "pending") :
    (paymentInitiate c b st).1.isOk = true ∧
    ((paymentInitiate c b st).2.applications.find?
      (fun a => a.id == aid && a.applicantEmail == c.email) =
      some { app with paymentStatus := "completed" }) ∧
    (paymentInitiate c b st).2.payments.length = st.payments.length + 1 ∧
    paymentInitiate c b (paymentInitiate c b st).2 =
      (.error .alreadyPaid, (paymentInitiate c b st).2) ∧
    isConflictError .alreadyPaid = true := by
  have heq₁ := paymentInitiate_eq c b st hrole aid haid haidne amt hamt app hfind
  rw [hpend] at heq₁
  rw [if_neg (by decide)] at heq₁
  have hupd : (paymentInitiate c b st).2.applications.find?
      (fun a => a.id == aid && a.applicantEmail == c.email) =
      some { app with paymentStatus := "completed" } := by
    rw [heq₁]
    exact find?_updateFirst _ _ _ _ hfind (by simpa using List.find?_some hfind)
  have heq₂ := paymentInitiate_eq c b ((paymentInitiate c b st).2) hrole aid
    haid haidne amt hamt { app with paymentStatus := "completed" } hupd
  rw [if_pos (by rfl)] at heq₂
  refine ⟨by rw [heq₁]; rfl, hupd, by rw [heq₁]; simp, heq₂,
    by decide⟩

/-- Witness for C5: the demo citizen pays twice for `app-1`. -/
theorem payment_double_call_witness :
    (paymentInitiate citizenCaller payBody1 statePending).1.isOk = true ∧
    ((paymentInitiate citizenCaller payBody1 statePending).2.applications.find?
      (fun a => a.id == "app-1" && a.applicantEmail == citizenCaller.email) =
      some { pendingApp with paymentStatus := "completed" }) ∧
    (paymentInitiate citizenCaller payBody1 statePending).2.payments.length =
      statePending.payments.length + 1 ∧
    paymentInitiate citizenCaller payBody1
        (paymentInitiate citizenCaller payBody1 statePending).2 =
      (.error .alreadyPaid,
        (paymentInitiate citizenCaller payBody1 statePending).2) ∧
    isConflictError .alreadyPaid = true :=
  payment_double_call citizenCaller payBody1 statePending
    (by decide) "app-1" (by decide) (by decide) 500 (by decide)
    pendingApp (by decide) (by decide)

/-- The pending application after payment completion. -/
def completedApp : Application := { pendingApp with paymentStatus := "completed" }

/-- The pending application after the officer's `approved` update. -/
def approvedApp : Application :=
  { pendingApp with
    applicationStatus := "approved"
    history := [{ actorRole := "officer", timestamp := 0
                  status := "approved", remarks := some "verified" }] }

/-- The listing handlers return the state unchanged. -/
theorem listApplications_snd (c : Caller) (st : St) :
    (listApplications c st).2 = st := by
  unfold listApplications
  repeat' split
  all_goals rfl

theorem listNotificationsForCaller_snd (c : Caller) (st : St) :
    (listNotificationsForCaller c st).2 = st := by
  unfold listNotificationsForCaller
  repeat' split
  all_goals rfl

/-- Reduction lemma for the status-update handler once the role check passes
and the Application is found: the outcome depends only on the applicant's
user lookup. -/
theorem updateApplicationStatus_eq (c : Caller) (appId : String)
    (b : StatusBody) (st : St)
    (hrole : (["officer", "admin"].contains c.role) = true)
    (app : Application)
    (hfind : st.applications.find? (fun a => a.id == appId) = some app) :
    updateApplicationStatus c appId b st =
      (match st.users.find? (fun u => u.email == app.applicantEmail) with
      | none =>
        (.error .runtimeTypeError,
         { st with
           applications := updateFirst (fun a => a.id == appId)
             (fun a => { a with
               applicationStatus := b.status
               history := a.history ++
                 [{ actorRole := c.role, timestamp := st.now
                    status := b.status, remarks := b.remarks }] })
             st.applications })
      | some u =>
        (.ok { app with
                applicationStatus := b.status
                history := app.history ++
                  [{ actorRole := c.role, timestamp := st.now
                     status := b.status, remarks := b.remarks }] },
         { st with
           applications := updateFirst (fun a => a.id == appId)
             (fun a => { a with
               applicationStatus := b.status
               history := a.history ++
                 [{ actorRole := c.role, timestamp := st.now
                    status := b.status, remarks := b.remarks }] })
             st.applications
           notifications := st.notifications ++
             [{ id := freshId st.nextId, toUserId := u.id
                message := "Application status updated to: " ++ b.status
                ts := st.now }]
           nextId := st.nextId + 1 })) := by
  have hrole' : (!(["officer", "admin"].contains c.role)) = false := by
    rw [hrole]
    rfl
  unfold updateApplicationStatus
  rw [hfind, hrole']
  rfl

/-- Updating the first matching element of a list relates it pointwise to the
original: every position holds either the untouched element or its image
under `f`. -/
theorem forall₂_updateFirst {α : Type} (R : α → α → Prop) (p : α → Bool)
    (f : α → α) (hrefl : ∀ x, R x x) (hf : ∀ x, R x (f x)) (l : List α) :
    List.Forall₂ R l (updateFirst p f l) := by
  induction l with
  | nil => exact List.Forall₂.nil
  | cons x xs ih =>
    simp only [updateFirst]
    by_cases hp : p x = true
    · rw [if_pos hp]
      exact List.Forall₂.cons (hf x)
        (List.forall₂_same.mpr (fun y _ => hrefl y))
    · rw [if_neg hp]
      exact List.Forall₂.cons (hrefl x) ih

/-- **C8.** Status updates and payment completions never change an
Application's `applicationType`, `applicantEmail`, `plotId`, or `documents`:
the successor store's application list corresponds position by position to
the prior one, each entry being the same Application (same `id`) with those
four fields unchanged. -/
theorem frame_fields_preserved (st : St) :
    (∀ (c : Caller) (appId : String) (b : StatusBody),
      List.Forall₂ (fun a a' => a'.id = a.id ∧
          a'.applicationType = a.applicationType ∧
          a'.applicantEmail = a.applicantEmail ∧
          a'.plotId = a.plotId ∧ a'.documents = a.documents)
        st.applications
        (updateApplicationStatus c appId b st).2.applications) ∧
    (∀ (c : Caller) (b : PaymentBody),
      List.Forall₂ (fun a a' => a'.id = a.id ∧
          a'.applicationType = a.applicationType ∧
          a'.applicantEmail = a.applicantEmail ∧
          a'.plotId = a.plotId ∧ a'.documents = a.documents)
        st.applications
        (paymentInitiate c b st).2.applications) := by
  constructor
  · intro c appId b
    unfold updateApplicationStatus
    repeat' split
    all_goals
      first
        | exact List.forall₂_same.mpr
            (fun x _ => ⟨rfl, rfl, rfl, rfl, rfl⟩)
        | exact forall₂_updateFirst _ _ _
            (fun x => ⟨rfl, rfl, rfl, rfl, rfl⟩)
            (fun x => ⟨rfl, rfl, rfl, rfl, rfl⟩) st.applications
  · intro c b
    unfold paymentInitiate
    repeat' split
    all_goals
      first
        | exact List.forall₂_same.mpr
            (fun x _ => ⟨rfl, rfl, rfl, rfl, rfl⟩)
        | exact forall₂_updateFirst _ _ _
            (fun x => ⟨rfl, rfl, rfl, rfl, rfl⟩)
            (fun x => ⟨rfl, rfl, rfl, rfl, rfl⟩) st.applications

/-- Witness for C8: after the demo citizen's payment, the store's single
Application is pointwise the same application with the four immutable fields
unchanged. -/
theorem frame_fields_preserved_witness :
    List.Forall₂ (fun a a' => a'.id = a.id ∧
        a'.applicationType = a.applicationType ∧
        a'.applicantEmail = a.applicantEmail ∧
        a'.plotId = a.plotId ∧ a'.documents = a.documents)
      statePending.applications
      (paymentInitiate citizenCaller payBody1 statePending).2.applications :=
  (frame_fields_preserved statePending).2 citizenCaller payBody1

/-- **C9.** Whenever submission, payment completion, or status update returns
one of the four defined errors (`ValidationError`, `AuthorizationError`,
`NotFoundError`, `ConflictError`), the store is unchanged: nothing is created
and nothing is altered.  (The uncaught `runtimeTypeError` of the status
handler is outside the four classes — and is indeed the one path that
mutates before failing.) -/
theorem no_mutation_on_error (st : St) (e : ApiError)
    (htax : (isValidationError e || isAuthorizationError e ||
             isNotFoundError e || isConflictError e) = true) :
    (∀ (c : Caller) (b : SubmitBody),
      (submitApplication c b st).1 = .error e →
      (submitApplication c b st).2 = st) ∧
    (∀ (c : Caller) (b : PaymentBody),
      (paymentInitiate c b st).1 = .error e →
      (paymentInitiate c b st).2 = st) ∧
    (∀ (c : Caller) (appId : String) (b : StatusBody),
      (updateApplicationStatus c appId b st).1 = .error e →
      (updateApplicationStatus c appId b st).2 = st) := by
  have hne : e ≠ .runtimeTypeError := by
    intro h
    subst h
    simp [isValidationError, isAuthorizationError, isNotFoundError,
      isConflictError] at htax
  refine ⟨?_, ?_, ?_⟩
  · intro c b
    unfold submitApplication
    repeat' split
    all_goals intro h
    all_goals first | rfl | simp at h
  · intro c b
    unfold paymentInitiate
    repeat' split
    all_goals intro h
    all_goals first | rfl | simp at h
  · intro c appId b
    unfold updateApplicationStatus
    repeat' split
    all_goals intro h
    all_goals
      first
        | rfl
        | exact absurd (Except.error.inj h).symm hne
        | simp at h

/-- Witness for C9: a submission with every field missing is rejected with
the missing-fields `ValidationError` and the store is unchanged. -/
theorem no_mutation_on_error_witness :
    (submitApplication citizenCaller emptyBody demoState).2 = demoState :=
  (no_mutation_on_error demoState .missingFields (by decide)).1
    citizenCaller emptyBody (by decide)

/-- Each engine operation maps every stored Application to a successor
Application with the same `id` whose `history` extends the old one on the
right (no truncation, no reordering). -/
theorem history_extends_step (op : EngineOp) (st : St) (a : Application)
    (h : a ∈ st.applications) :
    ∃ a', a' ∈ (stepSt op st).applications ∧ a'.id = a.id ∧
      ∃ t, a'.history = a.history ++ t := by
  cases op with
  | submit c b =>
    rw [show stepSt (.submit c b) st = (submitApplication c b st).2 from rfl]
    unfold submitApplication
    repeat' split
    all_goals
      first
        | exact ⟨a, h, rfl, [], by simp⟩
        | exact ⟨a, List.mem_append_left _ h, rfl, [], by simp⟩
  | pay c b =>
    rw [show stepSt (.pay c b) st = (paymentInitiate c b st).2 from rfl]
    unfold paymentInitiate
    repeat' split
    all_goals
      first
        | exact ⟨a, h, rfl, [], by simp⟩
        | exact updateFirst_rel
            (fun x y => y.id = x.id ∧ ∃ t, y.history = x.history ++ t)
            (fun x => x.id == b.applicationId.getD ""
              && x.applicantEmail == c.email)
            (fun x => { x with paymentStatus := "completed" })
            (fun x => ⟨rfl, [], by simp⟩) (fun x => ⟨rfl, [], by simp⟩) h
  | setStatus c appId b =>
    rw [show stepSt (.setStatus c appId b) st =
        (updateApplicationStatus c appId b st).2 from rfl]
    unfold updateApplicationStatus
    repeat' split
    all_goals
      first
        | exact ⟨a, h, rfl, [], by simp⟩
        | exact updateFirst_rel
            (fun x y => y.id = x.id ∧ ∃ t, y.history = x.history ++ t)
            (fun x => x.id == appId)
            (fun x => { x with
              applicationStatus := b.status
              history := x.history ++
                [{ actorRole := c.role, timestamp := st.now
                   status := b.status, remarks := b.remarks }] })
            (fun x => ⟨rfl, [], by simp⟩) (fun x => ⟨rfl, _, rfl⟩) h
  | listApps c =>
    rw [show stepSt (.listApps c) st = (listApplications c st).2 from rfl,
      listApplications_snd]
    exact ⟨a, h, rfl, [], by simp⟩
  | listNotifs c =>
    rw [show stepSt (.listNotifs c) st = (listNotificationsForCaller c st).2
        from rfl,
      listNotificationsForCaller_snd]
    exact ⟨a, h, rfl, [], by simp⟩

/-- **C7.** Every successful status update appends exactly one record to the
target Application's history (both in the returned Application and in the
store, via `updateFirst`), and across every sequence of engine operations a
stored Application's history only ever grows on the right — monotonically
non-decreasing, never truncated or reordered. -/
theorem history_append_monotone :
    (∀ (c : Caller) (appId : String) (b : StatusBody) (st : St)
        (app' : Application),
      (updateApplicationStatus c appId b st).1 = .ok app' →
      ∃ app, st.applications.find? (fun a => a.id == appId) = some app ∧
        app'.history = app.history ++
          [{ actorRole := c.role, timestamp := st.now
             status := b.status, remarks := b.remarks }] ∧
        (updateApplicationStatus c appId b st).2.applications =
          updateFirst (fun a => a.id == appId)
            (fun a => { a with
              applicationStatus := b.status
              history := a.history ++
                [{ actorRole := c.role, timestamp := st.now
                   status := b.status, remarks := b.remarks }] })
            st.applications) ∧
    (∀ (ops : List EngineOp) (st : St) (a : Application),
      a ∈ st.applications →
      ∃ a', a' ∈ (runOps ops st).applications ∧ a'.id = a.id ∧
        ∃ t, a'.history = a.history ++ t) := by
  constructor
  · intro c appId b st app' hok
    by_cases hrole : (["officer", "admin"].contains c.role) = true
    · rcases hfind : st.applications.find? (fun a => a.id == appId)
        with _ | app
      · have hrole' : (!(["officer", "admin"].contains c.role)) = false := by
          rw [hrole]
          rfl
        unfold updateApplicationStatus at hok
        rw [hfind, hrole'] at hok
        simp at hok
      · have heq := updateApplicationStatus_eq c appId b st hrole app hfind
        rw [heq] at hok ⊢
        rcases hu : st.users.find? (fun u => u.email == app.applicantEmail)
          with _ | u
        · rw [hu] at hok
          simp at hok
        · rw [hu] at hok ⊢
          simp only [Except.ok.injEq] at hok
          exact ⟨app, hfind, by rw [← hok], rfl⟩
    · have hb : (["officer", "admin"].contains c.role) = false := by
        simpa using hrole
      unfold updateApplicationStatus at hok
      rw [hb] at hok
      simp at hok
  · intro ops st a h
    induction ops generalizing st a with
    | nil => exact ⟨a, h, rfl, [], by simp⟩
    | cons op ops ih =>
      obtain ⟨a₁, h₁, hid₁, t₁, hh₁⟩ := history_extends_step op st a h
      obtain ⟨a₂, h₂, hid₂, t₂, hh₂⟩ := ih (stepSt op st) a₁ h₁
      exact ⟨a₂, h₂, hid₂.trans hid₁, t₁ ++ t₂,
        by rw [hh₂, hh₁, List.append_assoc]⟩

/-- Witness for C7: the officer approves `app-1`, appending one history
record; and a (trivial) run of engine operations preserves the pending
application's history as a prefix. -/
theorem history_append_monotone_witness :
    (∃ app, statePending.applications.find? (fun a => a.id == "app-1")
        = some app ∧
      approvedApp.history = app.history ++
        [{ actorRole := officerCaller.role, timestamp := statePending.now
           status := statusBody1.status, remarks := statusBody1.remarks }] ∧
      (updateApplicationStatus officerCaller "app-1" statusBody1
          statePending).2.applications =
        updateFirst (fun a => a.id == "app-1")
          (fun a => { a with
            applicationStatus := statusBody1.status
            history := a.history ++
              [{ actorRole := officerCaller.role, timestamp := statePending.now
                 status := statusBody1.status
                 remarks := statusBody1.remarks }] })
          statePending.applications) ∧
    (∃ a', a' ∈ (runOps [] statePending).applications ∧
      a'.id = pendingApp.id ∧
      ∃ t, a'.history = pendingApp.history ++ t) :=
  ⟨history_append_monotone.1 officerCaller "app-1" statusBody1 statePending
      approvedApp (by decide),
   history_append_monotone.2 [] statePending pendingApp (by decide)⟩

end LandRecords
